import Mathlib

/-!
Shallow embedding of `beacon_node/lighthouse_network/src/rpc/protocol.rs`:
the req/resp protocol catalog, the fork- and variant-dependent size-limit
engine, the typed request model, and the inbound negotiation step.

External collaborators (the `types` crate, the ssz crate, the codec and the
tokio runtime) are modelled at their interface boundary: the lazily computed
SSZ size constants become fields of a `SizeParams` record, the fork context
becomes a record of the three queries the source performs on it, and the
asynchronous await of the first decoded item becomes an explicit
`SocketPoll` value.
-/

/-- Fork names, the ordered closed enumeration of upgrade generations used by
`protocol.rs` (types crate `ForkName`): Base, Altair, Bellatrix, Capella,
Deneb, Electra, oldest to newest. -/
inductive ForkName where
  | base
  | altair
  | bellatrix
  | capella
  | deneb
  | electra
deriving DecidableEq, Repr

/-- Position of a fork in the total fork ordering (oldest = 0). -/
def ForkName.idx : ForkName → Nat
  | .base => 0
  | .altair => 1
  | .bellatrix => 2
  | .capella => 3
  | .deneb => 4
  | .electra => 5

/-- Modelled from the spec: `ForkName::bellatrix_enabled` lives in the types
crate (not under src/); per the spec it is true exactly at and after the
execution-payload-introducing fork (Bellatrix). -/
def ForkName.bellatrix_enabled (f : ForkName) : Bool :=
  decide (2 ≤ f.idx)

/-- Modelled from the spec: the specification-variant identifier
(types crate `EthSpecId`): mainnet, minimal and gnosis instantiations. -/
inductive EthSpecId where
  | Minimal
  | Mainnet
  | Gnosis
deriving DecidableEq, Repr

/-- Modelled from the spec: the Fork Context external collaborator (spec §2):
read-only state exposing the current fork, the fork-existence query, and the
chain-spec query `spec.is_peer_das_scheduled()` that `currently_supported`
performs on it. -/
structure ForkContext where
  current_fork : ForkName
  fork_exists : ForkName → Bool
  peer_das_scheduled : Bool

/-- Modelled from the spec: the SSZ offset constant `ssz::BYTES_PER_LENGTH_OFFSET`
(ssz crate, not under src/): the size of one length-prefix offset. -/
def bytes_per_length_offset : Nat := 4

/-- Modelled from the spec: the externally computed SSZ size constants that
`protocol.rs` obtains from the types crate (not under src/): empty/full block
encodings, execution-payload maxima, sidecar sizes, fixed lengths and
per-fork maxima of the light-client artifacts, and the fixed lengths of the
small response messages.  Each field stands for exactly one external leaf
quantity; the constants that `protocol.rs` itself derives from these by
arithmetic are defined below, following the source. -/
structure SizeParams where
  signed_beacon_block_base_min : Nat
  signed_beacon_block_base_max : Nat
  signed_beacon_block_altair_max : Nat
  signed_beacon_block_capella_max_without_payload : Nat
  signed_beacon_block_electra_max_without_payload : Nat
  max_execution_payload_bellatrix_size : Nat
  max_execution_payload_capella_size : Nat
  max_execution_payload_deneb_size : Nat
  max_execution_payload_electra_size : Nat
  kzg_commitment_ssz_fixed_len : Nat
  max_blobs_per_block : Nat
  blob_sidecar_size : Nat
  blob_sidecar_size_minimal : Nat
  data_columns_sidecar_min : Nat
  data_columns_sidecar_max : Nat
  status_message_ssz_fixed_len : Nat
  ping_ssz_fixed_len : Nat
  metadata_v1_ssz_fixed_len : Nat
  metadata_v3_ssz_fixed_len : Nat
  light_client_bootstrap_altair_fixed_len : Nat
  light_client_bootstrap_capella_max : Nat
  light_client_bootstrap_deneb_max : Nat
  light_client_bootstrap_electra_max : Nat
  light_client_optimistic_update_altair_fixed_len : Nat
  light_client_optimistic_update_capella_max : Nat
  light_client_optimistic_update_deneb_max : Nat
  light_client_optimistic_update_electra_max : Nat
  light_client_finality_update_altair_fixed_len : Nat
  light_client_finality_update_capella_max : Nat
  light_client_finality_update_deneb_max : Nat
  light_client_finality_update_electra_max : Nat
  light_client_updates_by_range_capella_max : Nat
  light_client_updates_by_range_deneb_max : Nat
  light_client_updates_by_range_electra_max : Nat

/-- SIGNED_BEACON_BLOCK_BELLATRIX_MAX: size of a full Altair block plus the
maximum execution payload plus the additional ssz offset for the
`ExecutionPayload` field (protocol.rs lines 80-84). -/
def SizeParams.signed_beacon_block_bellatrix_max (p : SizeParams) : Nat :=
  p.signed_beacon_block_altair_max
    + p.max_execution_payload_bellatrix_size
    + bytes_per_length_offset

/-- SIGNED_BEACON_BLOCK_CAPELLA_MAX (protocol.rs lines 86-90). -/
def SizeParams.signed_beacon_block_capella_max (p : SizeParams) : Nat :=
  p.signed_beacon_block_capella_max_without_payload
    + p.max_execution_payload_capella_size
    + bytes_per_length_offset

/-- SIGNED_BEACON_BLOCK_DENEB_MAX: Capella-without-payload plus the Deneb
payload maximum, the payload offset, the blob-commitments list and its
offset (protocol.rs lines 92-98). -/
def SizeParams.signed_beacon_block_deneb_max (p : SizeParams) : Nat :=
  p.signed_beacon_block_capella_max_without_payload
    + p.max_execution_payload_deneb_size
    + bytes_per_length_offset
    + p.kzg_commitment_ssz_fixed_len * p.max_blobs_per_block
    + bytes_per_length_offset

/-- SIGNED_BEACON_BLOCK_ELECTRA_MAX (protocol.rs lines 100-106). -/
def SizeParams.signed_beacon_block_electra_max (p : SizeParams) : Nat :=
  p.signed_beacon_block_electra_max_without_payload
    + p.max_execution_payload_electra_size
    + bytes_per_length_offset
    + p.kzg_commitment_ssz_fixed_len * p.max_blobs_per_block
    + bytes_per_length_offset

/-- Represents the ssz length bounds for RPC messages (protocol.rs RpcLimits). -/
structure RpcLimits where
  min : Nat
  max : Nat
deriving DecidableEq, Repr

/-- RpcLimits::new. -/
def RpcLimits.new (min max : Nat) : RpcLimits := ⟨min, max⟩

/-- RpcLimits::is_out_of_bounds: true if the given length is greater than
the smaller of `self.max` and `max_rpc_size`, or smaller than `self.min`
(protocol.rs lines 532-534). -/
def RpcLimits.is_out_of_bounds (self : RpcLimits) (length max_rpc_size : Nat) : Bool :=
  decide (length > Nat.min self.max max_rpc_size) || decide (length < self.min)

/-- Returns the maximum bytes that can be sent across the RPC
(protocol.rs max_rpc_size, lines 175-181). -/
def max_rpc_size (fork_context : ForkContext) (max_chunk_size : Nat) : Nat :=
  if fork_context.current_fork.bellatrix_enabled then
    max_chunk_size
  else
    max_chunk_size / 10

/-- Returns the rpc limits for beacon_block_by_range and beacon_block_by_root
responses (protocol.rs rpc_block_limits_by_fork, lines 187-213). -/
def rpc_block_limits_by_fork (p : SizeParams) (current_fork : ForkName) : RpcLimits :=
  match current_fork with
  | .base =>
      RpcLimits.new p.signed_beacon_block_base_min p.signed_beacon_block_base_max
  | .altair =>
      RpcLimits.new p.signed_beacon_block_base_min p.signed_beacon_block_altair_max
  | .bellatrix =>
      RpcLimits.new p.signed_beacon_block_base_min p.signed_beacon_block_bellatrix_max
  | .capella =>
      RpcLimits.new p.signed_beacon_block_base_min p.signed_beacon_block_capella_max
  | .deneb =>
      RpcLimits.new p.signed_beacon_block_base_min p.signed_beacon_block_deneb_max
  | .electra =>
      RpcLimits.new p.signed_beacon_block_base_min p.signed_beacon_block_electra_max

/-- protocol.rs rpc_light_client_updates_by_range_limits_by_fork
(lines 215-233); note the source takes the fixed length from
`LightClientFinalityUpdateAltair`. -/
def rpc_light_client_updates_by_range_limits_by_fork
    (p : SizeParams) (current_fork : ForkName) : RpcLimits :=
  let altair_fixed_len := p.light_client_finality_update_altair_fixed_len
  match current_fork with
  | .base => RpcLimits.new 0 0
  | .altair | .bellatrix => RpcLimits.new altair_fixed_len altair_fixed_len
  | .capella => RpcLimits.new altair_fixed_len p.light_client_updates_by_range_capella_max
  | .deneb => RpcLimits.new altair_fixed_len p.light_client_updates_by_range_deneb_max
  | .electra => RpcLimits.new altair_fixed_len p.light_client_updates_by_range_electra_max

/-- protocol.rs rpc_light_client_finality_update_limits_by_fork (lines 235-253). -/
def rpc_light_client_finality_update_limits_by_fork
    (p : SizeParams) (current_fork : ForkName) : RpcLimits :=
  let altair_fixed_len := p.light_client_finality_update_altair_fixed_len
  match current_fork with
  | .base => RpcLimits.new 0 0
  | .altair | .bellatrix => RpcLimits.new altair_fixed_len altair_fixed_len
  | .capella => RpcLimits.new altair_fixed_len p.light_client_finality_update_capella_max
  | .deneb => RpcLimits.new altair_fixed_len p.light_client_finality_update_deneb_max
  | .electra => RpcLimits.new altair_fixed_len p.light_client_finality_update_electra_max

/-- protocol.rs rpc_light_client_optimistic_update_limits_by_fork (lines 255-275). -/
def rpc_light_client_optimistic_update_limits_by_fork
    (p : SizeParams) (current_fork : ForkName) : RpcLimits :=
  let altair_fixed_len := p.light_client_optimistic_update_altair_fixed_len
  match current_fork with
  | .base => RpcLimits.new 0 0
  | .altair | .bellatrix => RpcLimits.new altair_fixed_len altair_fixed_len
  | .capella => RpcLimits.new altair_fixed_len p.light_client_optimistic_update_capella_max
  | .deneb => RpcLimits.new altair_fixed_len p.light_client_optimistic_update_deneb_max
  | .electra => RpcLimits.new altair_fixed_len p.light_client_optimistic_update_electra_max

/-- protocol.rs rpc_light_client_bootstrap_limits_by_fork (lines 277-289). -/
def rpc_light_client_bootstrap_limits_by_fork
    (p : SizeParams) (current_fork : ForkName) : RpcLimits :=
  let altair_fixed_len := p.light_client_bootstrap_altair_fixed_len
  match current_fork with
  | .base => RpcLimits.new 0 0
  | .altair | .bellatrix => RpcLimits.new altair_fixed_len altair_fixed_len
  | .capella => RpcLimits.new altair_fixed_len p.light_client_bootstrap_capella_max
  | .deneb => RpcLimits.new altair_fixed_len p.light_client_bootstrap_deneb_max
  | .electra => RpcLimits.new altair_fixed_len p.light_client_bootstrap_electra_max

/-- Protocol names (protocol.rs `Protocol`, lines 294-334). -/
inductive Protocol where
  | Status
  | Goodbye
  | BlocksByRange
  | BlocksByRoot
  | BlobsByRange
  | BlobsByRoot
  | DataColumnsByRoot
  | DataColumnsByRange
  | Ping
  | MetaData
  | LightClientBootstrap
  | LightClientOptimisticUpdate
  | LightClientFinalityUpdate
  | LightClientUpdatesByRange
deriving DecidableEq, Repr

/-- The snake_case wire serialization of a protocol name (the strum
`serialize_all = snake_case` derive plus the explicit serialize overrides). -/
def Protocol.display : Protocol → String
  | .Status => "status"
  | .Goodbye => "goodbye"
  | .BlocksByRange => "beacon_blocks_by_range"
  | .BlocksByRoot => "beacon_blocks_by_root"
  | .BlobsByRange => "blob_sidecars_by_range"
  | .BlobsByRoot => "blob_sidecars_by_root"
  | .DataColumnsByRoot => "data_column_sidecars_by_root"
  | .DataColumnsByRange => "data_column_sidecars_by_range"
  | .Ping => "ping"
  | .MetaData => "metadata"
  | .LightClientBootstrap => "light_client_bootstrap"
  | .LightClientOptimisticUpdate => "light_client_optimistic_update"
  | .LightClientFinalityUpdate => "light_client_finality_update"
  | .LightClientUpdatesByRange => "light_client_updates_by_range"

/-- The termination marker enumeration for the streaming protocols
(methods.rs `ResponseTermination`, external; its six variants are the ones
named by the match arms of protocol.rs). -/
inductive ResponseTermination where
  | BlocksByRange
  | BlocksByRoot
  | BlobsByRange
  | BlobsByRoot
  | DataColumnsByRoot
  | DataColumnsByRange
deriving DecidableEq, Repr

/-- Protocol::terminator (protocol.rs lines 337-354). -/
def Protocol.terminator : Protocol → Option ResponseTermination
  | .Status => none
  | .Goodbye => none
  | .BlocksByRange => some .BlocksByRange
  | .BlocksByRoot => some .BlocksByRoot
  | .BlobsByRange => some .BlobsByRange
  | .BlobsByRoot => some .BlobsByRoot
  | .DataColumnsByRoot => some .DataColumnsByRoot
  | .DataColumnsByRange => some .DataColumnsByRange
  | .Ping => none
  | .MetaData => none
  | .LightClientBootstrap => none
  | .LightClientOptimisticUpdate => none
  | .LightClientFinalityUpdate => none
  | .LightClientUpdatesByRange => none

/-- RPC encodings supported (protocol.rs `Encoding`). -/
inductive Encoding where
  | SSZSnappy
deriving DecidableEq, Repr

/-- The wire name of an encoding (the Display impl, lines 475-482). -/
def Encoding.display : Encoding → String
  | .SSZSnappy => "ssz_snappy"

/-- All valid protocol name and version combinations
(protocol.rs `SupportedProtocol`, lines 365-384). -/
inductive SupportedProtocol where
  | StatusV1
  | GoodbyeV1
  | BlocksByRangeV1
  | BlocksByRangeV2
  | BlocksByRootV1
  | BlocksByRootV2
  | BlobsByRangeV1
  | BlobsByRootV1
  | DataColumnsByRootV1
  | DataColumnsByRangeV1
  | PingV1
  | MetaDataV1
  | MetaDataV2
  | MetaDataV3
  | LightClientBootstrapV1
  | LightClientOptimisticUpdateV1
  | LightClientFinalityUpdateV1
  | LightClientUpdatesByRangeV1
deriving DecidableEq, Repr

/-- SupportedProtocol::version_string (protocol.rs lines 387-408). -/
def SupportedProtocol.version_string : SupportedProtocol → String
  | .StatusV1 => "1"
  | .GoodbyeV1 => "1"
  | .BlocksByRangeV1 => "1"
  | .BlocksByRangeV2 => "2"
  | .BlocksByRootV1 => "1"
  | .BlocksByRootV2 => "2"
  | .BlobsByRangeV1 => "1"
  | .BlobsByRootV1 => "1"
  | .DataColumnsByRootV1 => "1"
  | .DataColumnsByRangeV1 => "1"
  | .PingV1 => "1"
  | .MetaDataV1 => "1"
  | .MetaDataV2 => "2"
  | .MetaDataV3 => "3"
  | .LightClientBootstrapV1 => "1"
  | .LightClientOptimisticUpdateV1 => "1"
  | .LightClientFinalityUpdateV1 => "1"
  | .LightClientUpdatesByRangeV1 => "1"

/-- SupportedProtocol::protocol (protocol.rs lines 410-433). -/
def SupportedProtocol.protocol : SupportedProtocol → Protocol
  | .StatusV1 => .Status
  | .GoodbyeV1 => .Goodbye
  | .BlocksByRangeV1 => .BlocksByRange
  | .BlocksByRangeV2 => .BlocksByRange
  | .BlocksByRootV1 => .BlocksByRoot
  | .BlocksByRootV2 => .BlocksByRoot
  | .BlobsByRangeV1 => .BlobsByRange
  | .BlobsByRootV1 => .BlobsByRoot
  | .DataColumnsByRootV1 => .DataColumnsByRoot
  | .DataColumnsByRangeV1 => .DataColumnsByRange
  | .PingV1 => .Ping
  | .MetaDataV1 => .MetaData
  | .MetaDataV2 => .MetaData
  | .MetaDataV3 => .MetaData
  | .LightClientBootstrapV1 => .LightClientBootstrap
  | .LightClientOptimisticUpdateV1 => .LightClientOptimisticUpdate
  | .LightClientFinalityUpdateV1 => .LightClientFinalityUpdate
  | .LightClientUpdatesByRangeV1 => .LightClientUpdatesByRange

/-- Tracks the types in a protocol id (protocol.rs `ProtocolId`):
the versioned protocol, the encoding, and the derived wire string. -/
structure ProtocolId where
  versioned_protocol : SupportedProtocol
  encoding : Encoding
  protocol_id : String
deriving DecidableEq, Repr

/-- ProtocolId::new (protocol.rs lines 667-681): derives the wire string
from the protocol prefix, name, version and encoding. -/
def ProtocolId.new (versioned_protocol : SupportedProtocol) (encoding : Encoding) :
    ProtocolId :=
  { versioned_protocol := versioned_protocol
    encoding := encoding
    protocol_id :=
      "/eth2/beacon_chain/req" ++ "/" ++ versioned_protocol.protocol.display
        ++ "/" ++ versioned_protocol.version_string ++ "/" ++ encoding.display }

/-- SupportedProtocol::currently_supported (protocol.rs lines 435-472):
the base list, then the metadata versions (v3 first once peer-DAS is
scheduled), then the blob protocols once Deneb exists, then the data-column
protocols once peer-DAS is scheduled. -/
def currently_supported (fork_context : ForkContext) : List ProtocolId :=
  [ProtocolId.new .StatusV1 .SSZSnappy,
   ProtocolId.new .GoodbyeV1 .SSZSnappy,
   ProtocolId.new .BlocksByRangeV2 .SSZSnappy,
   ProtocolId.new .BlocksByRangeV1 .SSZSnappy,
   ProtocolId.new .BlocksByRootV2 .SSZSnappy,
   ProtocolId.new .BlocksByRootV1 .SSZSnappy,
   ProtocolId.new .PingV1 .SSZSnappy]
  ++ (if fork_context.peer_das_scheduled then
        [ProtocolId.new .MetaDataV3 .SSZSnappy,
         ProtocolId.new .MetaDataV2 .SSZSnappy,
         ProtocolId.new .MetaDataV1 .SSZSnappy]
      else
        [ProtocolId.new .MetaDataV2 .SSZSnappy,
         ProtocolId.new .MetaDataV1 .SSZSnappy])
  ++ (if fork_context.fork_exists .deneb then
        [ProtocolId.new .BlobsByRootV1 .SSZSnappy,
         ProtocolId.new .BlobsByRangeV1 .SSZSnappy]
      else [])
  ++ (if fork_context.peer_das_scheduled then
        [ProtocolId.new .DataColumnsByRootV1 .SSZSnappy,
         ProtocolId.new .DataColumnsByRangeV1 .SSZSnappy]
      else [])

/-- The RPCProtocol upgrade object (protocol.rs lines 484-491); the phantom
EthSpec marker is elided, time is in abstract units. -/
structure RPCProtocol where
  fork_context : ForkContext
  max_rpc_size : Nat
  enable_light_client_server : Bool
  ttfb_timeout : Nat

/-- RPCProtocol::protocol_info (protocol.rs lines 498-515): the currently
supported list, with the three light-client protocols pushed at the end when
the light-client server is enabled. -/
def RPCProtocol.protocol_info (self : RPCProtocol) : List ProtocolId :=
  currently_supported self.fork_context
  ++ (if self.enable_light_client_server then
        [ProtocolId.new .LightClientBootstrapV1 .SSZSnappy,
         ProtocolId.new .LightClientOptimisticUpdateV1 .SSZSnappy,
         ProtocolId.new .LightClientFinalityUpdateV1 .SSZSnappy]
      else [])

/-- rpc_blob_limits (protocol.rs lines 684-693); the source is generic over
the EthSpec type, the model takes the variant identifier `E::spec_name()`. -/
def rpc_blob_limits (p : SizeParams) (spec_name : EthSpecId) : RpcLimits :=
  match spec_name with
  | .Minimal => RpcLimits.new p.blob_sidecar_size_minimal p.blob_sidecar_size_minimal
  | .Mainnet | .Gnosis => RpcLimits.new p.blob_sidecar_size p.blob_sidecar_size

/-- rpc_data_column_limits (protocol.rs lines 695-697). -/
def rpc_data_column_limits (p : SizeParams) : RpcLimits :=
  RpcLimits.new p.data_columns_sidecar_min p.data_columns_sidecar_max

/-- ProtocolId::rpc_response_limits (protocol.rs lines 603-637). -/
def rpc_response_limits (p : SizeParams) (spec_name : EthSpecId)
    (self : ProtocolId) (fork_context : ForkContext) : RpcLimits :=
  match self.versioned_protocol.protocol with
  | .Status =>
      RpcLimits.new p.status_message_ssz_fixed_len p.status_message_ssz_fixed_len
  | .Goodbye => RpcLimits.new 0 0
  | .BlocksByRange => rpc_block_limits_by_fork p fork_context.current_fork
  | .BlocksByRoot => rpc_block_limits_by_fork p fork_context.current_fork
  | .BlobsByRange => rpc_blob_limits p spec_name
  | .BlobsByRoot => rpc_blob_limits p spec_name
  | .DataColumnsByRoot => rpc_data_column_limits p
  | .DataColumnsByRange => rpc_data_column_limits p
  | .Ping => RpcLimits.new p.ping_ssz_fixed_len p.ping_ssz_fixed_len
  | .MetaData =>
      RpcLimits.new p.metadata_v1_ssz_fixed_len p.metadata_v3_ssz_fixed_len
  | .LightClientBootstrap =>
      rpc_light_client_bootstrap_limits_by_fork p fork_context.current_fork
  | .LightClientOptimisticUpdate =>
      rpc_light_client_optimistic_update_limits_by_fork p fork_context.current_fork
  | .LightClientFinalityUpdate =>
      rpc_light_client_finality_update_limits_by_fork p fork_context.current_fork
  | .LightClientUpdatesByRange =>
      rpc_light_client_updates_by_range_limits_by_fork p fork_context.current_fork

/-- Version tag of a metadata request (methods.rs `MetadataRequest`). -/
inductive MetadataVersion where
  | V1
  | V2
  | V3
deriving DecidableEq, Repr

/-- Version tag of a blocks-by-range or blocks-by-root request body. -/
inductive ReqVersion where
  | V1
  | V2
deriving DecidableEq, Repr

/-- The typed request model (protocol.rs `RequestType`, lines 771-787).
The request payload bodies live in methods.rs (external); only the version
tags that protocol.rs itself inspects are kept. -/
inductive RequestType where
  | Status
  | Goodbye
  | BlocksByRange (v : ReqVersion)
  | BlocksByRoot (v : ReqVersion)
  | BlobsByRange
  | BlobsByRoot
  | DataColumnsByRoot
  | DataColumnsByRange
  | LightClientBootstrap
  | LightClientOptimisticUpdate
  | LightClientFinalityUpdate
  | LightClientUpdatesByRange
  | Ping
  | MetaData (v : MetadataVersion)
deriving DecidableEq, Repr

/-- RequestType::expect_exactly_one_response (protocol.rs lines 935-952). -/
def RequestType.expect_exactly_one_response : RequestType → Bool
  | .Status => true
  | .Goodbye => false
  | .BlocksByRange _ => false
  | .BlocksByRoot _ => false
  | .BlobsByRange => false
  | .BlobsByRoot => false
  | .DataColumnsByRoot => false
  | .DataColumnsByRange => false
  | .Ping => true
  | .MetaData _ => true
  | .LightClientBootstrap => true
  | .LightClientOptimisticUpdate => true
  | .LightClientFinalityUpdate => true
  | .LightClientUpdatesByRange => true

/-- RequestType::stream_termination (protocol.rs lines 851-870); `none`
models the unreachable (panic) arms of the source match. -/
def RequestType.stream_termination : RequestType → Option ResponseTermination
  | .BlocksByRange _ => some .BlocksByRange
  | .BlocksByRoot _ => some .BlocksByRoot
  | .BlobsByRange => some .BlobsByRange
  | .BlobsByRoot => some .BlobsByRoot
  | .DataColumnsByRoot => some .DataColumnsByRoot
  | .DataColumnsByRange => some .DataColumnsByRange
  | .Status => none
  | .Goodbye => none
  | .Ping => none
  | .MetaData _ => none
  | .LightClientBootstrap => none
  | .LightClientFinalityUpdate => none
  | .LightClientOptimisticUpdate => none
  | .LightClientUpdatesByRange => none

/-- Error in RPC encoding/decoding (protocol.rs `RPCError`, lines 958-983);
the payload types carried by some variants are collapsed to strings. -/
inductive RPCError where
  | SSZDecodeError (msg : String)
  | IoError (msg : String)
  | ErrorResponse (code : String) (msg : String)
  | StreamTimeout
  | UnsupportedProtocol
  | IncompleteStream
  | InvalidData (msg : String)
  | InternalError (msg : String)
  | NegotiationTimeout
  | HandlerRejected
  | Disconnected
deriving DecidableEq, Repr

/-- The From impl mapping a tokio timeout `Elapsed` value to an RPCError
(protocol.rs lines 991-995). -/
def rpc_error_from_elapsed : RPCError := .StreamTimeout

/-- The framed inbound substream handed back by the upgrade; `consumed`
counts the bytes read from the underlying byte source (the codec internals
are external). -/
structure InboundStream where
  consumed : Nat
deriving DecidableEq, Repr

/-- The outcome of awaiting the first decoded item from the framed stream
under the overall request timeout (the external tokio
`timeout(REQUEST_TIMEOUT, socket.into_future()).await` expression):
either the timeout elapsed, or the stream produced one item (a decoded
request or a decode error) together with the remaining stream, or the
stream ended having produced nothing. -/
inductive SocketPoll where
  | elapsed
  | item (r : Except RPCError RequestType) (rest : InboundStream)
  | ended (rest : InboundStream)
deriving Repr

/-- RPCProtocol::upgrade_inbound (protocol.rs lines 717-768), with the
asynchronous await abstracted into the `poll` argument: the five empty-body
protocols short-circuit to Ok with the matching request value and the
untouched stream; every other protocol dispatches on the awaited outcome. -/
def upgrade_inbound (_self : RPCProtocol) (socket : InboundStream)
    (protocol : ProtocolId) (poll : SocketPoll) :
    Except RPCError (RequestType × InboundStream) :=
  match protocol.versioned_protocol with
  | .MetaDataV1 => Except.ok (.MetaData .V1, socket)
  | .MetaDataV2 => Except.ok (.MetaData .V2, socket)
  | .MetaDataV3 => Except.ok (.MetaData .V3, socket)
  | .LightClientOptimisticUpdateV1 => Except.ok (.LightClientOptimisticUpdate, socket)
  | .LightClientFinalityUpdateV1 => Except.ok (.LightClientFinalityUpdate, socket)
  | _ =>
      match poll with
      | .elapsed => Except.error rpc_error_from_elapsed
      | .item (Except.ok request) stream => Except.ok (request, stream)
      | .item (Except.error e) _ => Except.error e
      | .ended _ => Except.error RPCError.IncompleteStream

/-- The five protocols taken by the empty-body fast path of upgrade_inbound
(the explicit arms of the source match before the wildcard). -/
def SupportedProtocol.empty_body_fast_path : SupportedProtocol → Bool
  | .MetaDataV1 | .MetaDataV2 | .MetaDataV3
  | .LightClientOptimisticUpdateV1 | .LightClientFinalityUpdateV1 => true
  | _ => false

/-- Modelled from the spec: the ordering facts about the external leaf size
constants that the spec asserts (monotonic schema growth of blocks and
light-client artifacts across forks, spec sections 3 and 4.2; the
mainnet-vs-minimal sidecar comparison of section 4.2; the source comments at
rpc_block_limits_by_fork), plus the fact that an empty data-column sidecar
encodes strictly shorter than a maximal one. -/
abbrev SizeParams.Realistic (p : SizeParams) : Prop :=
  p.signed_beacon_block_base_min ≤ p.signed_beacon_block_base_max
  ∧ p.signed_beacon_block_base_max ≤ p.signed_beacon_block_altair_max
  ∧ p.signed_beacon_block_altair_max ≤ p.signed_beacon_block_capella_max_without_payload
  ∧ p.signed_beacon_block_capella_max_without_payload
      ≤ p.signed_beacon_block_electra_max_without_payload
  ∧ p.max_execution_payload_bellatrix_size ≤ p.max_execution_payload_capella_size
  ∧ p.max_execution_payload_capella_size ≤ p.max_execution_payload_deneb_size
  ∧ p.max_execution_payload_deneb_size ≤ p.max_execution_payload_electra_size
  ∧ p.blob_sidecar_size_minimal < p.blob_sidecar_size
  ∧ p.data_columns_sidecar_min < p.data_columns_sidecar_max
  ∧ p.light_client_bootstrap_altair_fixed_len ≤ p.light_client_bootstrap_capella_max
  ∧ p.light_client_bootstrap_capella_max ≤ p.light_client_bootstrap_deneb_max
  ∧ p.light_client_bootstrap_deneb_max ≤ p.light_client_bootstrap_electra_max
  ∧ p.light_client_optimistic_update_altair_fixed_len
      ≤ p.light_client_optimistic_update_capella_max
  ∧ p.light_client_optimistic_update_capella_max
      ≤ p.light_client_optimistic_update_deneb_max
  ∧ p.light_client_optimistic_update_deneb_max
      ≤ p.light_client_optimistic_update_electra_max
  ∧ p.light_client_finality_update_altair_fixed_len
      ≤ p.light_client_finality_update_capella_max
  ∧ p.light_client_finality_update_capella_max
      ≤ p.light_client_finality_update_deneb_max
  ∧ p.light_client_finality_update_deneb_max
      ≤ p.light_client_finality_update_electra_max
  ∧ p.light_client_finality_update_altair_fixed_len
      ≤ p.light_client_updates_by_range_capella_max
  ∧ p.light_client_updates_by_range_capella_max
      ≤ p.light_client_updates_by_range_deneb_max
  ∧ p.light_client_updates_by_range_deneb_max
      ≤ p.light_client_updates_by_range_electra_max

/-- Modelled from the spec: a concrete instantiation of the external leaf
size constants (the types crate computes the real ones; representative
values are chosen here satisfying `SizeParams.Realistic`). -/
def specSizes : SizeParams where
  signed_beacon_block_base_min := 304
  signed_beacon_block_base_max := 157656
  signed_beacon_block_altair_max := 157756
  signed_beacon_block_capella_max_without_payload := 157900
  signed_beacon_block_electra_max_without_payload := 158100
  max_execution_payload_bellatrix_size := 10000000
  max_execution_payload_capella_size := 10010000
  max_execution_payload_deneb_size := 10020000
  max_execution_payload_electra_size := 10030000
  kzg_commitment_ssz_fixed_len := 48
  max_blobs_per_block := 6
  blob_sidecar_size := 131928
  blob_sidecar_size_minimal := 10544
  data_columns_sidecar_min := 320
  data_columns_sidecar_max := 800000
  status_message_ssz_fixed_len := 84
  ping_ssz_fixed_len := 8
  metadata_v1_ssz_fixed_len := 16
  metadata_v3_ssz_fixed_len := 26
  light_client_bootstrap_altair_fixed_len := 24100
  light_client_bootstrap_capella_max := 24200
  light_client_bootstrap_deneb_max := 24300
  light_client_bootstrap_electra_max := 24400
  light_client_optimistic_update_altair_fixed_len := 1000
  light_client_optimistic_update_capella_max := 1100
  light_client_optimistic_update_deneb_max := 1200
  light_client_optimistic_update_electra_max := 1300
  light_client_finality_update_altair_fixed_len := 2000
  light_client_finality_update_capella_max := 2100
  light_client_finality_update_deneb_max := 2200
  light_client_finality_update_electra_max := 2300
  light_client_updates_by_range_capella_max := 2500
  light_client_updates_by_range_deneb_max := 2600
  light_client_updates_by_range_electra_max := 2700

/-- A fork context whose current fork is Deneb, without peer-DAS. -/
def denebForkContext : ForkContext where
  current_fork := .deneb
  fork_exists := fun f => decide (f.idx ≤ 4)
  peer_das_scheduled := false

/-- A fork context whose current fork is Bellatrix. -/
def bellatrixForkContext : ForkContext where
  current_fork := .bellatrix
  fork_exists := fun f => decide (f.idx ≤ 2)
  peer_das_scheduled := false

/-- A fork context whose current fork is Altair (the fork immediately before
the execution-payload-introducing fork). -/
def altairForkContext : ForkContext where
  current_fork := .altair
  fork_exists := fun f => decide (f.idx ≤ 1)
  peer_das_scheduled := false

/-- A sample upgrade object over the Deneb fork context. -/
def sampleRPCProtocol : RPCProtocol where
  fork_context := denebForkContext
  max_rpc_size := 10485760
  enable_light_client_server := false
  ttfb_timeout := 5

/-- Monotonicity over the whole fork ordering follows from monotonicity over
adjacent forks. -/
theorem fork_max_mono_of_chain (g : ForkName → Nat)
    (h1 : g ForkName.base ≤ g ForkName.altair)
    (h2 : g ForkName.altair ≤ g ForkName.bellatrix)
    (h3 : g ForkName.bellatrix ≤ g ForkName.capella)
    (h4 : g ForkName.capella ≤ g ForkName.deneb)
    (h5 : g ForkName.deneb ≤ g ForkName.electra) :
    ∀ a b : ForkName, a.idx ≤ b.idx → g a ≤ g b := by
  intro a b hab
  cases a <;> cases b <;> (try simp [ForkName.idx] at hab) <;> omega

/-- C1 counterexample: the Goodbye request satisfies the claimed precondition
(expect_exactly_one_response is false) yet its stream_termination is the
unreachable (panic) branch, modelled as none. -/
theorem goodbye_breaks_termination_precondition :
    RequestType.Goodbye.expect_exactly_one_response = false ∧
    RequestType.Goodbye.stream_termination = none := by decide

/-- C1 (amended): stream_termination returns the matching defined marker for
each of the six streaming request variants, and its panic branch is avoided
exactly on those variants, i.e. exactly when expect_exactly_one_response is
false and the variant is not Goodbye. -/
theorem stream_termination_exactly_streaming :
    (∀ w, (RequestType.BlocksByRange w).stream_termination
        = some ResponseTermination.BlocksByRange) ∧
    (∀ w, (RequestType.BlocksByRoot w).stream_termination
        = some ResponseTermination.BlocksByRoot) ∧
    RequestType.BlobsByRange.stream_termination = some ResponseTermination.BlobsByRange ∧
    RequestType.BlobsByRoot.stream_termination = some ResponseTermination.BlobsByRoot ∧
    RequestType.DataColumnsByRoot.stream_termination
      = some ResponseTermination.DataColumnsByRoot ∧
    RequestType.DataColumnsByRange.stream_termination
      = some ResponseTermination.DataColumnsByRange ∧
    (∀ v : RequestType, (v.stream_termination).isSome = true
      ↔ (v.expect_exactly_one_response = false ∧ v ≠ RequestType.Goodbye)) := by
  refine ⟨fun w => by cases w <;> rfl, fun w => by cases w <;> rfl,
    rfl, rfl, rfl, rfl, ?_⟩
  intro v
  cases v <;> simp [RequestType.stream_termination, RequestType.expect_exactly_one_response]

/-- C1 witness: the BlobsByRange streaming request has a defined marker. -/
theorem stream_termination_example :
    (RequestType.BlobsByRange.stream_termination).isSome = true :=
  (stream_termination_exactly_streaming.2.2.2.2.2.2 RequestType.BlobsByRange).mpr
    ⟨by decide, by decide⟩

/-- C2 counterexample: data-column sidecar response limits are not a fixed
min-equals-max size; the minimum (empty sidecar encoding) differs from the
maximum (maximal sidecar encoding). -/
theorem data_column_limits_not_fixed_size :
    ¬ ((rpc_data_column_limits specSizes).min = (rpc_data_column_limits specSizes).max) := by
  decide

/-- C2 (amended): blob sidecar response limits are a fixed size
(min equals max) per specification variant, Mainnet and Gnosis sharing the
mainnet sidecar size and Minimal using the strictly smaller minimal-spec
sidecar size; data-column sidecar response limits are fork- and
variant-independent but span the strict interval from the empty-sidecar
encoding to the maximal sidecar size.  All of these are exactly the
rpc_response_limits of the four sidecar protocols for every fork context. -/
theorem blob_and_data_column_limits (p : SizeParams) (h : p.Realistic) :
    (∀ s fc,
      rpc_response_limits p s (ProtocolId.new .BlobsByRangeV1 .SSZSnappy) fc
          = rpc_blob_limits p s
        ∧ rpc_response_limits p s (ProtocolId.new .BlobsByRootV1 .SSZSnappy) fc
          = rpc_blob_limits p s
        ∧ rpc_response_limits p s (ProtocolId.new .DataColumnsByRangeV1 .SSZSnappy) fc
          = rpc_data_column_limits p
        ∧ rpc_response_limits p s (ProtocolId.new .DataColumnsByRootV1 .SSZSnappy) fc
          = rpc_data_column_limits p) ∧
    (∀ s, (rpc_blob_limits p s).min = (rpc_blob_limits p s).max) ∧
    rpc_blob_limits p .Mainnet = rpc_blob_limits p .Gnosis ∧
    rpc_blob_limits p .Minimal
      = RpcLimits.new p.blob_sidecar_size_minimal p.blob_sidecar_size_minimal ∧
    (rpc_blob_limits p .Minimal).max < (rpc_blob_limits p .Mainnet).max ∧
    rpc_data_column_limits p
      = RpcLimits.new p.data_columns_sidecar_min p.data_columns_sidecar_max ∧
    (rpc_data_column_limits p).min < (rpc_data_column_limits p).max := by
  obtain ⟨-, -, -, -, -, -, -, h8, h9, -⟩ := h
  exact ⟨fun s fc => ⟨rfl, rfl, rfl, rfl⟩,
    fun s => by cases s <;> rfl, rfl, rfl, h8, rfl, h9⟩

/-- C2 witness: the modelled size constants are realistic and the
data-column limits there are a strict interval. -/
theorem blob_and_data_column_limits_example :
    SizeParams.Realistic specSizes ∧
    (rpc_data_column_limits specSizes).min < (rpc_data_column_limits specSizes).max :=
  ⟨by decide, (blob_and_data_column_limits specSizes (by decide)).2.2.2.2.2.2⟩

/-- C3: is_out_of_bounds is true exactly when the length is below the
minimum or above the smaller of the maximum and the rpc size cap, and false
exactly on the closed interval between them. -/
theorem is_out_of_bounds_iff (limits : RpcLimits) (length cap : Nat) :
    (limits.is_out_of_bounds length cap = true
      ↔ (length < limits.min ∨ Nat.min limits.max cap < length)) ∧
    (limits.is_out_of_bounds length cap = false
      ↔ (limits.min ≤ length ∧ length ≤ Nat.min limits.max cap)) := by
  refine ⟨?_, ?_⟩ <;>
    simp only [RpcLimits.is_out_of_bounds, gt_iff_lt, Bool.or_eq_true, decide_eq_true_eq,
      Bool.or_eq_false_iff, decide_eq_false_iff_not, not_lt] <;> omega

/-- C4: for every fork the block response minimum is the Base block minimum,
and the block and light-client per-fork response maxima are monotone along
the fork ordering. -/
theorem block_and_light_client_limits_monotone (p : SizeParams) (h : p.Realistic) :
    (∀ f : ForkName,
      (rpc_block_limits_by_fork p f).min = p.signed_beacon_block_base_min) ∧
    (∀ a b : ForkName, a.idx ≤ b.idx →
      (rpc_block_limits_by_fork p a).max ≤ (rpc_block_limits_by_fork p b).max) ∧
    (∀ a b : ForkName, a.idx ≤ b.idx →
      (rpc_light_client_bootstrap_limits_by_fork p a).max
        ≤ (rpc_light_client_bootstrap_limits_by_fork p b).max) ∧
    (∀ a b : ForkName, a.idx ≤ b.idx →
      (rpc_light_client_optimistic_update_limits_by_fork p a).max
        ≤ (rpc_light_client_optimistic_update_limits_by_fork p b).max) ∧
    (∀ a b : ForkName, a.idx ≤ b.idx →
      (rpc_light_client_finality_update_limits_by_fork p a).max
        ≤ (rpc_light_client_finality_update_limits_by_fork p b).max) ∧
    (∀ a b : ForkName, a.idx ≤ b.idx →
      (rpc_light_client_updates_by_range_limits_by_fork p a).max
        ≤ (rpc_light_client_updates_by_range_limits_by_fork p b).max) := by
  obtain ⟨h1, h2, h3, h4, h5, h6, h7, h8, h9, h10, h11, h12, h13, h14, h15,
    h16, h17, h18, h19, h20, h21⟩ := h
  refine ⟨fun f => by cases f <;> rfl,
    fork_max_mono_of_chain _ ?_ ?_ ?_ ?_ ?_,
    fork_max_mono_of_chain _ ?_ ?_ ?_ ?_ ?_,
    fork_max_mono_of_chain _ ?_ ?_ ?_ ?_ ?_,
    fork_max_mono_of_chain _ ?_ ?_ ?_ ?_ ?_,
    fork_max_mono_of_chain _ ?_ ?_ ?_ ?_ ?_⟩ <;>
  simp [rpc_block_limits_by_fork, rpc_light_client_bootstrap_limits_by_fork,
    rpc_light_client_optimistic_update_limits_by_fork,
    rpc_light_client_finality_update_limits_by_fork,
    rpc_light_client_updates_by_range_limits_by_fork,
    SizeParams.signed_beacon_block_bellatrix_max,
    SizeParams.signed_beacon_block_capella_max,
    SizeParams.signed_beacon_block_deneb_max,
    SizeParams.signed_beacon_block_electra_max,
    RpcLimits.new, bytes_per_length_offset] <;>
  omega

/-- C4 witness: with the modelled realistic constants the Altair block
maximum is at most the Electra block maximum. -/
theorem block_limits_monotone_example :
    SizeParams.Realistic specSizes ∧
    (rpc_block_limits_by_fork specSizes ForkName.altair).max
      ≤ (rpc_block_limits_by_fork specSizes ForkName.electra).max :=
  ⟨by decide,
   (block_and_light_client_limits_monotone specSizes (by decide)).2.1
     ForkName.altair ForkName.electra (by decide)⟩

/-- C5: for every fork context the metadata identifiers of
currently_supported are exactly v3, v2, v1 in that order when peer-DAS is
scheduled, and exactly v2, v1 otherwise. -/
theorem metadata_versions_exact (fc : ForkContext) :
    ((currently_supported fc).filter
        (fun pid => decide (pid.versioned_protocol.protocol = Protocol.MetaData))).map
        (fun pid => pid.versioned_protocol)
      = if fc.peer_das_scheduled then
          [SupportedProtocol.MetaDataV3, SupportedProtocol.MetaDataV2,
           SupportedProtocol.MetaDataV1]
        else [SupportedProtocol.MetaDataV2, SupportedProtocol.MetaDataV1] := by
  rcases hp : fc.peer_das_scheduled <;> rcases hd : fc.fork_exists ForkName.deneb <;>
    simp only [currently_supported, hp, hd] <;> decide

/-- C6: the blob protocol identifiers appear in currently_supported exactly
when Deneb exists in the fork context, and the v2 blocks-by-range and
blocks-by-root identifiers always precede their v1 counterparts. -/
theorem blobs_iff_deneb_and_v2_first (fc : ForkContext) :
    (ProtocolId.new SupportedProtocol.BlobsByRangeV1 Encoding.SSZSnappy
        ∈ currently_supported fc ↔ fc.fork_exists ForkName.deneb = true) ∧
    (ProtocolId.new SupportedProtocol.BlobsByRootV1 Encoding.SSZSnappy
        ∈ currently_supported fc ↔ fc.fork_exists ForkName.deneb = true) ∧
    List.indexOf (ProtocolId.new SupportedProtocol.BlocksByRangeV2 Encoding.SSZSnappy)
        (currently_supported fc)
      < List.indexOf (ProtocolId.new SupportedProtocol.BlocksByRangeV1 Encoding.SSZSnappy)
        (currently_supported fc) ∧
    List.indexOf (ProtocolId.new SupportedProtocol.BlocksByRootV2 Encoding.SSZSnappy)
        (currently_supported fc)
      < List.indexOf (ProtocolId.new SupportedProtocol.BlocksByRootV1 Encoding.SSZSnappy)
        (currently_supported fc) := by
  rcases hp : fc.peer_das_scheduled <;> rcases hd : fc.fork_exists ForkName.deneb <;>
    simp only [currently_supported, hp, hd] <;> decide

/-- C7: max_rpc_size equals the configured chunk size at and after the
execution-payload-introducing fork (Bellatrix, index 2), and one tenth of it
before. -/
theorem max_rpc_size_fork_cases (fc : ForkContext) (cap : Nat) :
    (2 ≤ fc.current_fork.idx → max_rpc_size fc cap = cap) ∧
    (fc.current_fork.idx < 2 → max_rpc_size fc cap = cap / 10) := by
  cases hf : fc.current_fork <;>
    simp [max_rpc_size, ForkName.bellatrix_enabled, ForkName.idx, hf]

/-- C7 witness: the boundary forks on both sides: the full cap at Bellatrix
itself and a tenth of the cap at Altair, the fork immediately before it. -/
theorem max_rpc_size_boundary :
    max_rpc_size bellatrixForkContext 10485760 = 10485760 ∧
    max_rpc_size altairForkContext 10485760 = 1048576 :=
  ⟨(max_rpc_size_fork_cases bellatrixForkContext 10485760).1 (by decide),
   (max_rpc_size_fork_cases altairForkContext 10485760).2 (by decide)⟩

/-- C8: for the five empty-body protocols, upgrade_inbound returns Ok with
the corresponding request value and the untouched open stream, for every
possible awaited outcome (so nothing is read and the request timeout is
never awaited). -/
theorem upgrade_inbound_fast_paths (self : RPCProtocol) (socket : InboundStream)
    (protocol : ProtocolId) (poll : SocketPoll) :
    (protocol.versioned_protocol = .MetaDataV1 →
      upgrade_inbound self socket protocol poll
        = Except.ok (RequestType.MetaData .V1, socket)) ∧
    (protocol.versioned_protocol = .MetaDataV2 →
      upgrade_inbound self socket protocol poll
        = Except.ok (RequestType.MetaData .V2, socket)) ∧
    (protocol.versioned_protocol = .MetaDataV3 →
      upgrade_inbound self socket protocol poll
        = Except.ok (RequestType.MetaData .V3, socket)) ∧
    (protocol.versioned_protocol = .LightClientOptimisticUpdateV1 →
      upgrade_inbound self socket protocol poll
        = Except.ok (RequestType.LightClientOptimisticUpdate, socket)) ∧
    (protocol.versioned_protocol = .LightClientFinalityUpdateV1 →
      upgrade_inbound self socket protocol poll
        = Except.ok (RequestType.LightClientFinalityUpdate, socket)) := by
  refine ⟨?_, ?_, ?_, ?_, ?_⟩ <;> intro hvp <;> simp [upgrade_inbound, hvp]

/-- C8 witness: a substream matched to metadata v2 yields the MetaData v2
request with the stream still at zero bytes consumed, even when the awaited
outcome would have been a timeout. -/
theorem upgrade_inbound_metadata_v2_example :
    upgrade_inbound sampleRPCProtocol { consumed := 0 }
        (ProtocolId.new .MetaDataV2 .SSZSnappy) SocketPoll.elapsed
      = Except.ok (RequestType.MetaData .V2, { consumed := 0 }) :=
  (upgrade_inbound_fast_paths sampleRPCProtocol { consumed := 0 }
    (ProtocolId.new .MetaDataV2 .SSZSnappy) SocketPoll.elapsed).2.1 rfl

/-- C9: for every protocol outside the empty-body fast path, upgrade_inbound
maps an elapsed timeout to StreamTimeout, a decoded request to Ok with the
remaining stream, a decode error to that error unchanged, and an ended
stream to IncompleteStream. -/
theorem upgrade_inbound_await_cases (self : RPCProtocol) (socket : InboundStream)
    (protocol : ProtocolId)
    (h : protocol.versioned_protocol.empty_body_fast_path = false) :
    upgrade_inbound self socket protocol SocketPoll.elapsed
      = Except.error RPCError.StreamTimeout ∧
    (∀ request rest, upgrade_inbound self socket protocol
        (SocketPoll.item (Except.ok request) rest) = Except.ok (request, rest)) ∧
    (∀ e rest, upgrade_inbound self socket protocol
        (SocketPoll.item (Except.error e) rest) = Except.error e) ∧
    (∀ rest, upgrade_inbound self socket protocol (SocketPoll.ended rest)
      = Except.error RPCError.IncompleteStream) := by
  cases hvp : protocol.versioned_protocol <;>
    simp [SupportedProtocol.empty_body_fast_path, hvp] at h <;>
    (refine ⟨?_, ?_, ?_, ?_⟩ <;> intros <;>
      simp [upgrade_inbound, hvp, rpc_error_from_elapsed])

/-- C9 witness: a beacon_blocks_by_range v2 substream whose byte source
closes before producing anything yields IncompleteStream. -/
theorem upgrade_inbound_incomplete_stream_example :
    upgrade_inbound sampleRPCProtocol { consumed := 0 }
        (ProtocolId.new .BlocksByRangeV2 .SSZSnappy)
        (SocketPoll.ended { consumed := 0 })
      = Except.error RPCError.IncompleteStream :=
  (upgrade_inbound_await_cases sampleRPCProtocol { consumed := 0 }
    (ProtocolId.new .BlocksByRangeV2 .SSZSnappy) (by decide)).2.2.2 { consumed := 0 }

/-- C10: protocol_info is currently_supported, extended with exactly the
light-client bootstrap, optimistic-update and finality-update identifiers
when the light-client server flag is set, and the LightClientUpdatesByRangeV1
identifier never appears in it. -/
theorem updates_by_range_never_advertised (r : RPCProtocol) :
    (r.enable_light_client_server = true →
      r.protocol_info = currently_supported r.fork_context
        ++ [ProtocolId.new .LightClientBootstrapV1 .SSZSnappy,
            ProtocolId.new .LightClientOptimisticUpdateV1 .SSZSnappy,
            ProtocolId.new .LightClientFinalityUpdateV1 .SSZSnappy]) ∧
    (r.enable_light_client_server = false →
      r.protocol_info = currently_supported r.fork_context) ∧
    r.protocol_info.all
      (fun pid => pid.versioned_protocol
        ≠ SupportedProtocol.LightClientUpdatesByRangeV1) = true := by
  refine ⟨fun he => by simp [RPCProtocol.protocol_info, he],
    fun he => by simp [RPCProtocol.protocol_info, he], ?_⟩
  rcases he : r.enable_light_client_server <;>
    rcases hp : r.fork_context.peer_das_scheduled <;>
    rcases hd : r.fork_context.fork_exists ForkName.deneb <;>
    simp only [RPCProtocol.protocol_info, currently_supported, he, hp, hd] <;> decide

/-- C10 witness: the sample upgrade object, which has the light-client
server disabled, advertises exactly the currently supported list. -/
theorem updates_by_range_never_advertised_example :
    RPCProtocol.protocol_info sampleRPCProtocol = currently_supported denebForkContext :=
  (updates_by_range_never_advertised sampleRPCProtocol).2.1 rfl
